import Mathlib

/-!
Verification of the dataset-acquisition pipeline of `pysap/data.py`
(functions `get_sample_data`, `md5_sum_file`, `progress_bar`, `download_file`,
`copy_file`).

The filesystem, the network and the remote server are modelled explicitly:

* `World` holds the files on disk (an association list from path to byte
  contents), the set of existing directories, the remote side (a map from URL
  to an optional `RemoteFile`; `none` models a URL whose `urlopen` probe
  raises), and the set of currently open file handles.
* `Trace` records the observable I/O events of one call: how many network
  connections were opened, how many bytes were read from the remote, which
  `Range: bytes=K-` headers were sent (recorded as the offsets `K`), the
  progress ratios passed to `progress_bar`, how many internal from-scratch
  retries happened, which files were removed by the overwrite handling, and
  how many `shutil.copy2` calls were made.
* Byte contents are `List Nat`; progress ratios are exact rationals (the
  source computes them in floating point; the rational value is the
  mathematical value of `bytes_so_far / total_size`).

`download_file` in the source calls itself once with `resume=False,
overwrite=False` when the range request of the resume branch is rejected
(`except HTTPError`).  Because the flag is flipped, the callee can never take
the resume branch again, so the recursion is unrolled here: `download_fresh`
is the body of `download_file` as executed with `resume=False` (the resume
branch is unreachable there), and `download_file` calls it at the single
recursion site.  The theorem `download_file_false_eq_fresh` checks that the
unrolling is faithful.
-/

/-- One character list split step: the last `/`-separated component of a path,
embedding `os.path.basename`.  `acc` is the component read so far. -/
def lastComponentCh : List Char → List Char → List Char
  | acc, [] => acc
  | acc, c :: cs => if c = '/' then lastComponentCh [] cs else lastComponentCh (acc ++ [c]) cs

/-- Embedding of `os.path.basename` for plain filesystem paths. -/
def pbasename (p : String) : String := String.mk (lastComponentCh [] p.data)

/-- Scan for the `://` separating a URL scheme from the rest, returning the
characters after it (`none` when the string has no scheme). -/
def afterScheme : List Char → Option (List Char)
  | [] => none
  | ':' :: '/' :: '/' :: rest => some rest
  | _ :: rest => afterScheme rest

/-- Embedding of `urlparse(url).path`: everything from the first `/` after the
host when the string has a scheme, the whole string otherwise. -/
def urlPathChars (url : String) : List Char :=
  match afterScheme url.data with
  | some rest => rest.dropWhile (fun c => c != '/')
  | none => url.data

/-- Embedding of `os.path.basename(urlparse(url).path)` (data.py lines
250-252). -/
def urlBasename (url : String) : String := String.mk (lastComponentCh [] (urlPathChars url))

/-- Embedding of `os.path.join(dir, name)` for a relative `name`. -/
def pjoin (dir name : String) : String := dir ++ "/" ++ name

/-- The remote side of one URL: the full byte content served, whether the
response carries a parsable `Content-Length` header, whether a `Range` request
is accepted (when `false`, opening with a `Range` header raises `HTTPError`),
and an optional transfer fault: `failAfter = some m` means the response stream
delivers `m` bytes and then `read` raises an `HTTPError` whose string form is
`failMsg`. -/
structure RemoteFile where
  bytes : List Nat
  hasLength : Bool
  acceptRange : Bool
  failAfter : Option Nat
  failMsg : String
deriving DecidableEq

/-- The state the Python code interacts with: files on disk, directories,
the remote servers, and the open file handles. -/
structure World where
  fs : List (String × List Nat)
  dirs : List String
  remote : String → Option RemoteFile
  openHandles : List String

/-- Contents of a file (`none` when the path does not exist). -/
def fsGet (w : World) (p : String) : Option (List Nat) := w.fs.lookup p

/-- Embedding of `os.path.exists` / `os.path.isfile` (the model has no
directory/file ambiguity: only files live in `fs`). -/
def fsExists (w : World) (p : String) : Bool := (fsGet w p).isSome

/-- Embedding of `os.path.getsize`. -/
def fsSize (w : World) (p : String) : Nat := ((fsGet w p).getD []).length

/-- Write a file (create or replace). -/
def fsSet (w : World) (p : String) (c : List Nat) : World :=
  { w with fs := (p, c) :: w.fs.filter (fun e => e.1 != p) }

/-- Embedding of `os.remove`. -/
def fsRemove (w : World) (p : String) : World :=
  { w with fs := w.fs.filter (fun e => e.1 != p) }

/-- Embedding of `shutil.move src dst` (promote the temp file). -/
def fsMove (w : World) (src dst : String) : World :=
  match fsGet w src with
  | none => w
  | some c => fsSet (fsRemove w src) dst c

/-- Embedding of `os.makedirs` guarded by `os.path.exists` (data.py lines
246-248 and 381-383). -/
def makedirs (w : World) (d : String) : World :=
  if w.dirs.contains d then w else { w with dirs := d :: w.dirs }

/-- Close a file handle (the `finally` clause of `download_file`). -/
def closeFile (w : World) (p : String) : World :=
  { w with openHandles := w.openHandles.filter (fun q => q != p) }

/-- The observable I/O events of one `download_file` / `copy_file` /
`get_sample_data` call. -/
structure Trace where
  networkOpens : Nat
  bytesFromRemote : Nat
  rangeRequests : List Nat
  ratios : List Rat
  retries : Nat
  removals : List String
  copies : Nat
deriving DecidableEq

/-- The empty trace. -/
def Trace.empty : Trace := ⟨0, 0, [], [], 0, [], 0⟩

/-- Concatenation of traces (used where one call delegates to another). -/
def Trace.app (a b : Trace) : Trace :=
  ⟨a.networkOpens + b.networkOpens, a.bytesFromRemote + b.bytesFromRemote,
   a.rangeRequests ++ b.rangeRequests, a.ratios ++ b.ratios,
   a.retries + b.retries, a.removals ++ b.removals, a.copies + b.copies⟩

/-- The progress ratios reported by the chunked transfer loop (data.py lines
320-336): read `csize`-byte chunks, stop on an empty chunk, and after each
chunk report `bytes_so_far / total_size` when the total is known and the
placeholder `0` otherwise.  Structural recursion on a fuel that starts at the
stream length (each iteration consumes at least one byte). -/
def chunkRatiosAux : Nat → List Nat → Nat → Nat → Option Nat → List Rat
  | 0, _, _, _, _ => []
  | fuel + 1, stream, csize, sofar, total =>
    let chunk := stream.take csize
    if chunk.isEmpty then []
    else
      let b := sofar + chunk.length
      let r : Rat := match total with
        | some t => (b : Rat) / (t : Rat)
        | none => 0
      r :: chunkRatiosAux fuel (stream.drop csize) csize b total

/-- Ratios reported while transferring `stream`, starting from `sofar` bytes
already on disk, against an optionally known total size. -/
def chunkRatios (stream : List Nat) (csize sofar : Nat) (total : Option Nat) : List Rat :=
  chunkRatiosAux stream.length stream csize sofar total

/-- The errors `download_file` / `copy_file` can surface (the `Exception`
subclasses raised in data.py). -/
inductive DLError where
  | unreachable : String → DLError
  | transferFailed : String → DLError
  | ioError : String → DLError
deriving DecidableEq

deriving instance DecidableEq for Except

/-- The part of `download_file` from the successful opening of the data
connection to the end (data.py lines 305-357): open the temp file (append mode
in the resume branch, truncating write mode otherwise), read the response in
8192-byte chunks reporting progress, and either hit a mid-transfer
`HTTPError` — the temp file is kept, the handle closed by `finally`, and an
`Exception` naming the file and the cause is raised — or finish, close the
handle and `shutil.move` the temp file onto the final name.  `dropK` is the
offset of the range request (`0` for a fresh download); the response stream is
the remote content from that offset, and the reported total size is the
response `Content-Length` plus the bytes already on disk.  The trace's
`networkOpens := 2` counts the reachability probe (made by the caller just
before) together with the data connection opened here. -/
def runTransfer (w : World) (rf : RemoteFile) (fname tfname dfname : String)
    (dropK : Nat) (append : Bool) (removals : List String) (ranges : List Nat) :
    World × Trace × Except DLError String :=
  let resp := rf.bytes.drop dropK
  let delivered := match rf.failAfter with
    | none => resp
    | some m => resp.take m
  let failed := match rf.failAfter with
    | none => false
    | some m => decide (m < resp.length)
  let total : Option Nat := if rf.hasLength then some (resp.length + dropK) else none
  let old := if append then (fsGet w tfname).getD [] else []
  let wOpen : World := { w with openHandles := tfname :: w.openHandles }
  let w1 := closeFile (fsSet wOpen tfname (old ++ delivered)) tfname
  let tr : Trace := ⟨2, delivered.length, ranges, chunkRatios delivered 8192 dropK total, 0, removals, 0⟩
  if failed then
    (w1, tr, Except.error (DLError.transferFailed
      (rf.failMsg ++ "\nError while downloading file '" ++ fname ++ "'. Dataset download aborted.")))
  else
    (fsMove w1 tfname dfname, tr, Except.ok dfname)

/-- The names and deletions computed before any network access. -/
structure DlCtx where
  w : World
  removals : List String
  fname : String
  dfname : String
  tfname : String

/-- The preamble of `download_file` (data.py lines 246-272): create the data
directory, derive the final and temp names from the URL, return the final path
at once when it exists and `overwrite` is not set, and otherwise delete the
final and/or temp file when `overwrite` is set. -/
def dlPre (url data_dir : String) (overwrite : Bool) (w : World) :
    Sum (World × String) DlCtx :=
  let w0 := makedirs w data_dir
  let fname := urlBasename url
  let download_fname := pjoin data_dir fname
  let temp_fname := pjoin data_dir (fname ++ ".part")
  if fsExists w0 download_fname && !overwrite then
    Sum.inl (w0, download_fname)
  else
    let s1 := if fsExists w0 download_fname && overwrite
      then (fsRemove w0 download_fname, [download_fname])
      else (w0, ([] : List String))
    let s2 := if fsExists s1.1 temp_fname && overwrite
      then (fsRemove s1.1 temp_fname, s1.2 ++ [temp_fname])
      else s1
    Sum.inr ⟨s2.1, s2.2, fname, download_fname, temp_fname⟩

/-- The message of the `ValueError` raised when the reachability probe
`urlopen(url)` fails (data.py lines 277-282). -/
def unreachableMsg (url : String) : String :=
  "The '" ++ url ++ "' dataset has not been released yet."

/-- `download_file` as executed with `resume=False`: the resume branch (data.py
lines 291-306) is not taken, so after the preamble and the reachability probe
the transfer runs fresh (`data = urlopen(url)`, temp file opened `"wb"`). -/
def download_fresh (url data_dir : String) (overwrite : Bool) (w : World) :
    World × Trace × Except DLError String :=
  match dlPre url data_dir overwrite w with
  | Sum.inl wp => (wp.1, Trace.empty, Except.ok wp.2)
  | Sum.inr ctx =>
    match ctx.w.remote url with
    | none =>
      (ctx.w, ⟨1, 0, [], [], 0, ctx.removals, 0⟩,
        Except.error (DLError.unreachable (unreachableMsg url)))
    | some rf => runTransfer ctx.w rf ctx.fname ctx.tfname ctx.dfname 0 false ctx.removals []

/-- Embedding of `download_file(url, data_dir, resume, overwrite)` (data.py
lines 220-359).  The resume branch sends `Range: bytes=K-` where `K` is the
size of the existing temp file and appends the response to it; when the server
rejects the range request (`except HTTPError` at line 300), the single
recursive call `download_file(url, data_dir, resume=False, overwrite=False)`
is the unrolled `download_fresh` (see the module comment). -/
def download_file (url data_dir : String) (resume overwrite : Bool) (w : World) :
    World × Trace × Except DLError String :=
  match dlPre url data_dir overwrite w with
  | Sum.inl wp => (wp.1, Trace.empty, Except.ok wp.2)
  | Sum.inr ctx =>
    match ctx.w.remote url with
    | none =>
      (ctx.w, ⟨1, 0, [], [], 0, ctx.removals, 0⟩,
        Except.error (DLError.unreachable (unreachableMsg url)))
    | some rf =>
      if resume && fsExists ctx.w ctx.tfname then
        let lsize := fsSize ctx.w ctx.tfname
        if rf.acceptRange then
          runTransfer ctx.w rf ctx.fname ctx.tfname ctx.dfname lsize true ctx.removals [lsize]
        else
          let out := download_fresh url data_dir false ctx.w
          (out.1, Trace.app ⟨2, 0, [lsize], [], 1, ctx.removals, 0⟩ out.2.1, out.2.2)
      else
        runTransfer ctx.w rf ctx.fname ctx.tfname ctx.dfname 0 false ctx.removals []

/-- Embedding of `copy_file(path, data_dir, overwrite)` (data.py lines
362-410): create the data directory, short-circuit on an existing target
unless `overwrite` is set, otherwise `shutil.copy2` the source over. -/
def copy_file (path data_dir : String) (overwrite : Bool) (w : World) :
    World × Trace × Except DLError String :=
  let w0 := makedirs w data_dir
  let copy_fname := pjoin data_dir (pbasename path)
  if fsExists w0 copy_fname && !overwrite then
    (w0, Trace.empty, Except.ok copy_fname)
  else
    let s1 := if fsExists w0 copy_fname && overwrite
      then (fsRemove w0 copy_fname, [copy_fname])
      else (w0, ([] : List String))
    match fsGet s1.1 path with
    | none => (s1.1, ⟨0, 0, [], [], 0, s1.2, 1⟩, Except.error (DLError.ioError path))
    | some c => (fsSet s1.1 copy_fname c, ⟨0, 0, [], [], 0, s1.2, 1⟩, Except.ok copy_fname)

/-- Embedding of `md5_sum_file` (data.py lines 157-177): the file is read in
8192-byte chunks into a running MD5 accumulator, which digests exactly the
whole contents; the hash itself is external, so it is a parameter `digest`
applied to the file's bytes (`none` models the `IOError` of a missing file). -/
def md5_sum_file (digest : List Nat → String) (w : World) (fname : String) : Option String :=
  (fsGet w fname).map digest

/-- One catalog record of `SAMPLE_DATE_FILES`: source URL, optional expected
md5 digest, and the loader options forwarded opaquely to `pysap.io.load`. -/
structure DatasetEntry where
  url : String
  md5sum : Option String
  options : List (String × String)
deriving DecidableEq

/-- Modelled constant: `os.path.expanduser("~")`. -/
def HOME : String := "/home/user"

/-- Embedding of `DATADIR = os.path.join(os.path.expanduser("~"), ".local",
"share", "pysap")` (data.py line 104). -/
def DATADIR : String := HOME ++ "/.local/share/pysap"

/-- Modelled constant: `PACKAGEDIR = os.path.dirname(pysap.__file__)`. -/
def PACKAGEDIR : String := HOME ++ "/pysap"

/-- The static dataset catalog `SAMPLE_DATE_FILES` (data.py lines 35-103). -/
def SAMPLE_DATE_FILES : List (String × DatasetEntry) :=
  [("dict-learn-dataset",
    ⟨"ftp://ftp.cea.fr/pub/unati/nsap/pysap/datasets/training_database.npy",
     some "4fa7669901cfeef410429be8640b594a", []⟩),
   ("3d-pmri",
    ⟨"ftp://ftp.cea.fr/pub/unati/nsap/pysap/datasets/orange_phantom_3d_pmri_images.npy",
     some "e4ac268fde0226c6fdcf2e9b62b240f0", [("dtype", "numpy.complex")]⟩),
   ("2d-pmri",
    ⟨"ftp://ftp.cea.fr/pub/unati/nsap/pysap/datasets/orange_phantom_pmri_images.npy",
     some "b5cbfe5bb46a050ccc66cab244bf478e", [("dtype", "numpy.complex")]⟩),
   ("mri-radial-3d-samples",
    ⟨"ftp://ftp.cea.fr/pub/unati/nsap/pysap/datasets/samples_3D_radial_spi_N256_nc1997x3073.mat",
     some "0324b15ed8368e20fe7315281f31b6e6", [("image_field", "samples")]⟩),
   ("mri-radial-samples",
    ⟨"ftp://ftp.cea.fr/pub/unati/nsap/pysap/datasets/samples_radial_GA_nc64_512.npy",
     some "07b006ef003b825086880a663dfcdb6d", []⟩),
   ("mri-nifti",
    ⟨"ftp://ftp.cea.fr/pub/unati/nsap/pysap/datasets/t1_localizer.nii.gz",
     some "9617b36e5510a4783038c63241da21d4", []⟩),
   ("mri-slice-nifti",
    ⟨"ftp://ftp.cea.fr/pub/unati/nsap/pysap/datasets/BrainPhantom512.nii.gz",
     some "19983e6003ae94487d03131f4bacae2e", []⟩),
   ("mri-mask",
    ⟨"ftp://ftp.cea.fr/pub/unati/nsap/pysap/datasets/mask_BrainPhantom512.nii.gz",
     some "078760d89e737e69b5578d47e368c42f", []⟩),
   ("astro-fits",
    ⟨"ftp://ftp.cea.fr/pub/unati/nsap/pysap/datasets/M31_128.fits", none, []⟩),
   ("astro-mask",
    ⟨"ftp://ftp.cea.fr/pub/unati/nsap/pysap/datasets/mask25_sig40.fits",
     some "8d7fd9b4d7c2aaf407fa1331860a130f", []⟩),
   ("astro-galaxy",
    ⟨"ftp://ftp.cea.fr/pub/unati/nsap/pysap/datasets/example_galaxy_image.npy", none, []⟩),
   ("astro-psf",
    ⟨"ftp://ftp.cea.fr/pub/unati/nsap/pysap/datasets/example_psf_image.npy", none, []⟩),
   ("astro-ngc2997",
    ⟨"https://github.com/CEA-COSMIC/pysap-data/blob/master/pysap-data/ngc2997.fits", none, []⟩)]

/-- Catalog lookup (`SAMPLE_DATE_FILES.get(dataset_name)`). -/
def lookupDataset (name : String) : Option DatasetEntry := SAMPLE_DATE_FILES.lookup name

/-- The valid dataset names, for the not-found message. -/
def allowedNames : List String := SAMPLE_DATE_FILES.map (fun e => e.1)

/-- The `PYSAP` placeholder `format` substitutes: the 7 characters of the
pattern, `Char.ofNat 123` and `125` being the braces. -/
def pysapPattern : List Char := [Char.ofNat 123, 'P', 'Y', 'S', 'A', 'P', Char.ofNat 125]

/-- Substitute every occurrence of the placeholder by `pkg`; fuel-indexed
structural recursion (the fuel starts at the string length and each step
consumes at least one character). -/
def substPYSAPAux (pkg : List Char) : Nat → List Char → List Char
  | 0, s => s
  | _ + 1, [] => []
  | fuel + 1, c :: rest =>
    if (c :: rest).take 7 = pysapPattern then
      pkg ++ substPYSAPAux pkg fuel ((c :: rest).drop 7)
    else c :: substPYSAPAux pkg fuel rest

/-- Embedding of `url.format(PYSAP=PACKAGEDIR)` (data.py line 135): replaces
the `PYSAP` placeholder by `PACKAGEDIR` (no catalog URL contains one, so this
is the identity on every catalog entry). -/
def formatPYSAP (s : String) : String :=
  String.mk (substPYSAPAux PACKAGEDIR.data s.data.length s.data)

/-- The outcome of `get_sample_data`: the `Exception` of an unknown name, a
propagated fetch error, the checksum `Exception`, or the dataset loaded by
`pysap.io.load(path, **options)` (modelled by the path and options handed to
the external loader). -/
inductive SampleResult where
  | notFound : String → SampleResult
  | fetchError : DLError → SampleResult
  | integrityError : String → SampleResult
  | loaded : String → List (String × String) → SampleResult
deriving DecidableEq

/-- Embedding of `get_sample_data(dataset_name, datadir, verbose)` (data.py
lines 108-154).  Mirrors the source faithfully: the `datadir` parameter is
accepted but never used — lines 137 and 140 pass the module constant
`DATADIR` to `copy_file` / `download_file`.  `digest` is the external MD5. -/
def get_sample_data (digest : List Nat → String) (dataset_name datadir : String) (w : World) :
    World × Trace × SampleResult :=
  match lookupDataset dataset_name with
  | none =>
    (w, Trace.empty, SampleResult.notFound
      ("No '" ++ dataset_name ++ "' sample data available - allowed sample data are "
        ++ String.intercalate ", " allowedNames ++ "."))
  | some ds =>
    let url := formatPYSAP ds.url
    let out :=
      if fsExists w url then copy_file url DATADIR false w
      else download_file url DATADIR true false w
    match out with
    | (w', t, Except.error e) => (w', t, SampleResult.fetchError e)
    | (w', t, Except.ok path) =>
      match ds.md5sum with
      | some m =>
        if md5_sum_file digest w' path ≠ some m then
          (w', t, SampleResult.integrityError
            ("File '" ++ path ++ "' checksum verification has failed."))
        else (w', t, SampleResult.loaded path ds.options)
      | none => (w', t, SampleResult.loaded path ds.options)

/-- Embedding of Python string repetition `s * n` for one character: negative
counts give the empty string. -/
def pyStrMul (c : Char) (n : Int) : String := String.mk (List.replicate n.toNat c)

/-- Embedding of `str.ljust(width, " ")`. -/
def pyLjust (s : String) (width : Nat) : String :=
  s ++ String.mk (List.replicate (width - s.length) ' ')

/-- Round-half-to-even (Python 3 `round`) of `n * q`, computed on the raw
numerator `n * q.num` over `q.den` so that it evaluates in the kernel. -/
def pyRoundMul (n : Nat) (q : Rat) : Int :=
  let num := (n : Int) * q.num
  let den := (q.den : Int)
  let fl := Int.fdiv num den
  let r := num - fl * den
  if 2 * r < den then fl
  else if den < 2 * r then fl + 1
  else if fl % 2 = 0 then fl else fl + 1

/-- Truncation toward zero (Python `int()`) of `n * q`, on raw numerators. -/
def pyIntMul (n : Nat) (q : Rat) : Int :=
  if q.num < 0 then -Int.fdiv ((n : Int) * (-q.num)) (q.den : Int)
  else Int.fdiv ((n : Int) * q.num) (q.den : Int)

/-- The three pieces `progress_bar` interpolates into its format string
(data.py lines 194-198): the bar `"=" * block + " " * (bar_length - block)`
with `block = int(round(bar_length * ratio))`, the percentage
`int(ratio * 100.)`, and the left-justified title. -/
def progressParts (ratio : Rat) (title : String) (bar_length maxsize : Nat) :
    String × Int × String :=
  (pyStrMul '=' (pyRoundMul bar_length ratio)
     ++ pyStrMul ' ' ((bar_length : Int) - pyRoundMul bar_length ratio),
   pyIntMul 100 ratio,
   pyLjust title maxsize)

/-- Embedding of `progress_bar(ratio, title, bar_length, maxsize)` (data.py
lines 180-200): the text written to stdout (the defaults of the source are
`bar_length=20`, `maxsize=40`). -/
def progress_bar (ratio : Rat) (title : String) (bar_length maxsize : Nat) : String :=
  "\r[" ++ (progressParts ratio title bar_length maxsize).1 ++ "] "
    ++ toString (progressParts ratio title bar_length maxsize).2.1 ++ "% "
    ++ (progressParts ratio title bar_length maxsize).2.2

/-- Is `pre` a leading block of `l`? (helper for substring statements). -/
def chLeads : List Char → List Char → Bool
  | [], _ => true
  | _ :: _, [] => false
  | a :: as, b :: bs => a == b && chLeads as bs

/-- Does `needle` occur contiguously inside the character list? -/
def chOccurs (needle : List Char) : List Char → Bool
  | [] => needle.isEmpty
  | c :: rest => chLeads needle (c :: rest) || chOccurs needle rest

/-- Does `needle` occur as a substring of `hay`? -/
def strOccurs (needle hay : String) : Bool := chOccurs needle.data hay.data

/-! ## Concrete worlds used by the witness and counterexample theorems -/

/-- A world where only the `astro-fits` catalog URL is reachable. -/
def C1w : World :=
  ⟨[], [], fun u =>
    if u = "ftp://ftp.cea.fr/pub/unati/nsap/pysap/datasets/M31_128.fits"
    then some ⟨[7, 7], true, true, none, ""⟩ else none, []⟩

/-- A 6-byte remote accepting range requests. -/
def C2rf : RemoteFile := ⟨[1, 2, 3, 4, 5, 6], true, true, none, ""⟩

/-- A world with a 2-byte temp file for `http://h/f`. -/
def C2w : World :=
  ⟨[("/d/f.part", [1, 2])], [], fun u => if u = "http://h/f" then some C2rf else none, []⟩

/-- A remote that rejects range requests. -/
def C3rf : RemoteFile := ⟨[5, 6, 7], true, false, none, ""⟩

/-- A world with a stale temp file and a range-rejecting remote. -/
def C3w : World :=
  ⟨[("/d3/f.part", [9])], [], fun u => if u = "http://h3/f" then some C3rf else none, []⟩

/-- A remote whose stream fails after delivering 2 of 4 bytes. -/
def C4rf : RemoteFile := ⟨[1, 2, 3, 4], true, true, some 2, "HTTP Error 500: Internal Server Error"⟩

/-- A world for the mid-transfer failure scenario. -/
def C4w : World := ⟨[], [], fun u => if u = "http://h4/a.bin" then some C4rf else none, []⟩

/-- A world with no reachable remote, no files and no directories. -/
def C5w : World := ⟨[], [], fun _ => none, []⟩

/-- The remote content for the `astro-mask` catalog URL. -/
def C6rf : RemoteFile := ⟨[3, 1, 4], true, true, none, ""⟩

/-- A world where only the `astro-mask` catalog URL is reachable. -/
def C6w : World :=
  ⟨[], [], fun u =>
    if u = "ftp://ftp.cea.fr/pub/unati/nsap/pysap/datasets/mask25_sig40.fits"
    then some C6rf else none, []⟩

/-- A world where the final download target already exists. -/
def C7w : World := ⟨[("/d/f", [1])], ["/d"], fun _ => none, []⟩

/-- A world where the copy target already exists. -/
def C7w2 : World := ⟨[("/e/g", [2]), ("/s/g", [2])], [], fun _ => none, []⟩

/-- A remote without a usable `Content-Length`. -/
def C9rf : RemoteFile := ⟨[8, 8, 8], false, true, none, ""⟩

/-- A world for the unknown-total-size scenario. -/
def C9w : World := ⟨[], [], fun u => if u = "http://h9/f" then some C9rf else none, []⟩

/-- A 2-byte remote for the truncating-restart scenario. -/
def C10rf : RemoteFile := ⟨[4, 5], true, true, none, ""⟩

/-- A world with a 3-byte stale temp file for `http://ha/f`. -/
def C10w : World :=
  ⟨[("/da/f.part", [9, 9, 9])], [], fun u => if u = "http://ha/f" then some C10rf else none, []⟩

/-! ## Helper lemmas about the filesystem model -/

theorem fsGet_makedirs (w : World) (d p : String) : fsGet (makedirs w d) p = fsGet w p := by
  unfold makedirs; split <;> rfl

theorem remote_makedirs (w : World) (d : String) : (makedirs w d).remote = w.remote := by
  unfold makedirs; split <;> rfl

theorem fs_makedirs (w : World) (d : String) : (makedirs w d).fs = w.fs := by
  unfold makedirs; split <;> rfl

theorem lookup_filter_ne {β : Type} (l : List (String × β)) (p q : String) (h : ¬ q = p) :
    List.lookup q (l.filter (fun e => e.1 != p)) = List.lookup q l := by
  induction l with
  | nil => rfl
  | cons a t ih =>
    obtain ⟨k, v⟩ := a
    by_cases hk : k = p
    · subst hk
      have h2 : (q == k) = false := beq_eq_false_iff_ne.mpr h
      simp [List.filter_cons, bne_self_eq_false, List.lookup, h2, ih]
    · have hkp : (k != p) = true := bne_iff_ne.mpr hk
      by_cases hq : q = k
      · subst hq
        simp [List.filter_cons, hkp, List.lookup]
      · have h2 : (q == k) = false := beq_eq_false_iff_ne.mpr hq
        simp [List.filter_cons, hkp, List.lookup, h2, ih]

theorem fsGet_fsSet_self (w : World) (p : String) (c : List Nat) :
    fsGet (fsSet w p c) p = some c := by
  simp [fsGet, fsSet, List.lookup]

theorem fsGet_fsSet_ne (w : World) (p q : String) (c : List Nat) (h : q ≠ p) :
    fsGet (fsSet w p c) q = fsGet w q := by
  have : (q == p) = false := by simp [h]
  simp only [fsGet, fsSet, List.lookup, this]
  exact lookup_filter_ne w.fs p q h

theorem fsGet_fsRemove_self (w : World) (p : String) : fsGet (fsRemove w p) p = none := by
  simp only [fsGet, fsRemove]
  induction w.fs with
  | nil => rfl
  | cons a t ih =>
    obtain ⟨k, v⟩ := a
    by_cases hk : k = p
    · subst hk
      simpa [List.filter_cons, bne_self_eq_false] using ih
    · have hkp : (k != p) = true := bne_iff_ne.mpr hk
      have h2 : (p == k) = false := beq_eq_false_iff_ne.mpr (fun h => hk h.symm)
      simp [List.filter_cons, hkp, List.lookup, h2, ih]

theorem fsGet_fsRemove_ne (w : World) (p q : String) (h : q ≠ p) :
    fsGet (fsRemove w p) q = fsGet w q := by
  simp only [fsGet, fsRemove]
  exact lookup_filter_ne w.fs p q h

theorem fsGet_closeFile (w : World) (p q : String) : fsGet (closeFile w p) q = fsGet w q := rfl

theorem fsGet_close_set_self (w : World) (p : String) (c : List Nat) :
    fsGet (closeFile (fsSet w p c) p) p = some c := by
  rw [fsGet_closeFile, fsGet_fsSet_self]

theorem fsGet_fsMove_dst (w : World) (src dst : String) (c : List Nat)
    (h : fsGet w src = some c) : fsGet (fsMove w src dst) dst = some c := by
  unfold fsMove; rw [h]; exact fsGet_fsSet_self _ _ _

theorem fsGet_fsMove_src (w : World) (src dst : String) (c : List Nat)
    (h : fsGet w src = some c) (hne : src ≠ dst) : fsGet (fsMove w src dst) src = none := by
  unfold fsMove; rw [h, fsGet_fsSet_ne _ _ _ _ hne]; exact fsGet_fsRemove_self _ _

theorem pjoin_part_ne (d f : String) : pjoin d (f ++ ".part") ≠ pjoin d f := by
  intro h
  have hlen := congrArg String.length h
  have h5 : (".part" : String).length = 5 := rfl
  simp only [pjoin, String.length_append, h5] at hlen
  omega

theorem chunkRatiosAux_total_none (fuel : Nat) :
    ∀ stream csize sofar (r : Rat), r ∈ chunkRatiosAux fuel stream csize sofar none → r = 0 := by
  induction fuel with
  | zero => intro stream csize sofar r hr; simp [chunkRatiosAux] at hr
  | succ n ih =>
    intro stream csize sofar r hr
    unfold chunkRatiosAux at hr
    by_cases he : (stream.take csize).isEmpty
    · simp [he] at hr
    · simp only [he, if_false] at hr
      rcases List.mem_cons.mp hr with h0 | hrec
      · exact h0
      · exact ih _ _ _ _ hrec

theorem chunkRatios_total_none (stream : List Nat) (csize sofar : Nat) (r : Rat)
    (hr : r ∈ chunkRatios stream csize sofar none) : r = 0 :=
  chunkRatiosAux_total_none _ _ _ _ _ hr

/-! ## Reduction lemmas for `download_file` / `download_fresh` -/

theorem remote_fsRemove (w : World) (p : String) : (fsRemove w p).remote = w.remote := rfl

theorem closeFile_not_open (w : World) (p : String) : p ∉ (closeFile w p).openHandles := by
  simp [closeFile, List.mem_filter]

theorem makedirs_contains (w : World) (d : String) :
    (makedirs w d).dirs.contains d = true := by
  unfold makedirs
  by_cases h : w.dirs.contains d
  · rw [if_pos h]; exact h
  · rw [if_neg h]
    show (d :: w.dirs).contains d = true
    simp

theorem makedirs_eq_of_contains (w : World) (d : String) (h : w.dirs.contains d = true) :
    makedirs w d = w := by
  unfold makedirs; rw [if_pos h]

theorem makedirs_makedirs (w : World) (d : String) :
    makedirs (makedirs w d) d = makedirs w d :=
  makedirs_eq_of_contains _ _ (makedirs_contains w d)

theorem dlPre_not_exists (url dir : String) (ow : Bool) (w : World)
    (hdf : fsGet w (pjoin dir (urlBasename url)) = none)
    (htmp2 : ow = true → fsGet w (pjoin dir (urlBasename url ++ ".part")) = none) :
    dlPre url dir ow w = Sum.inr ⟨makedirs w dir, [], urlBasename url,
      pjoin dir (urlBasename url), pjoin dir (urlBasename url ++ ".part")⟩ := by
  unfold dlPre
  have h1 : fsExists (makedirs w dir) (pjoin dir (urlBasename url)) = false := by
    simp [fsExists, fsGet_makedirs, hdf]
  cases ow with
  | false => simp [h1]
  | true =>
    have h2 : fsExists (makedirs w dir) (pjoin dir (urlBasename url ++ ".part")) = false := by
      simp [fsExists, fsGet_makedirs, htmp2 rfl]
    simp [h1, h2]

theorem dlPre_exists (url dir : String) (w : World) (c : List Nat)
    (hdf : fsGet w (pjoin dir (urlBasename url)) = some c) :
    dlPre url dir false w = Sum.inl (makedirs w dir, pjoin dir (urlBasename url)) := by
  unfold dlPre
  have h1 : fsExists (makedirs w dir) (pjoin dir (urlBasename url)) = true := by
    simp [fsExists, fsGet_makedirs, hdf]
  simp [h1]

theorem download_file_step (url dir : String) (resume ow : Bool) (w : World)
    (ctx : DlCtx) (rf : RemoteFile)
    (hpre : dlPre url dir ow w = Sum.inr ctx) (hrem : ctx.w.remote url = some rf) :
    download_file url dir resume ow w =
      (if resume && fsExists ctx.w ctx.tfname then
        if rf.acceptRange then
          runTransfer ctx.w rf ctx.fname ctx.tfname ctx.dfname (fsSize ctx.w ctx.tfname) true
            ctx.removals [fsSize ctx.w ctx.tfname]
        else
          let out := download_fresh url dir false ctx.w
          (out.1, Trace.app ⟨2, 0, [fsSize ctx.w ctx.tfname], [], 1, ctx.removals, 0⟩ out.2.1,
           out.2.2)
      else runTransfer ctx.w rf ctx.fname ctx.tfname ctx.dfname 0 false ctx.removals []) := by
  unfold download_file
  rw [hpre]
  dsimp only
  rw [hrem]

theorem download_fresh_step (url dir : String) (ow : Bool) (w : World)
    (ctx : DlCtx) (rf : RemoteFile)
    (hpre : dlPre url dir ow w = Sum.inr ctx) (hrem : ctx.w.remote url = some rf) :
    download_fresh url dir ow w =
      runTransfer ctx.w rf ctx.fname ctx.tfname ctx.dfname 0 false ctx.removals [] := by
  unfold download_fresh
  rw [hpre]
  dsimp only
  rw [hrem]

theorem download_file_unreachable (url dir : String) (resume ow : Bool) (w : World)
    (ctx : DlCtx) (hpre : dlPre url dir ow w = Sum.inr ctx)
    (hrem : ctx.w.remote url = none) :
    download_file url dir resume ow w =
      (ctx.w, ⟨1, 0, [], [], 0, ctx.removals, 0⟩,
       Except.error (DLError.unreachable (unreachableMsg url))) := by
  unfold download_file
  rw [hpre]
  dsimp only
  rw [hrem]

theorem download_file_short_circuit (url dir : String) (resume : Bool) (w : World) (c : List Nat)
    (hdf : fsGet w (pjoin dir (urlBasename url)) = some c) :
    download_file url dir resume false w
      = (makedirs w dir, Trace.empty, Except.ok (pjoin dir (urlBasename url))) := by
  unfold download_file
  rw [dlPre_exists url dir w c hdf]

theorem runTransfer_ok (w : World) (rf : RemoteFile) (fname tf df : String) (k : Nat)
    (app : Bool) (rem : List String) (rg : List Nat) (hfail : rf.failAfter = none) :
    runTransfer w rf fname tf df k app rem rg =
      (fsMove (closeFile (fsSet { w with openHandles := tf :: w.openHandles } tf
          ((if app then (fsGet w tf).getD [] else []) ++ rf.bytes.drop k)) tf) tf df,
       ⟨2, (rf.bytes.drop k).length, rg,
        chunkRatios (rf.bytes.drop k) 8192 k
          (if rf.hasLength then some ((rf.bytes.drop k).length + k) else none),
        0, rem, 0⟩,
       Except.ok df) := by
  unfold runTransfer
  rw [hfail]
  rfl

theorem runTransfer_err (w : World) (rf : RemoteFile) (fname tf df : String) (k : Nat)
    (app : Bool) (rem : List String) (rg : List Nat) (m : Nat)
    (hfail : rf.failAfter = some m) (hm : m < (rf.bytes.drop k).length) :
    runTransfer w rf fname tf df k app rem rg =
      (closeFile (fsSet { w with openHandles := tf :: w.openHandles } tf
          ((if app then (fsGet w tf).getD [] else []) ++ (rf.bytes.drop k).take m)) tf,
       ⟨2, ((rf.bytes.drop k).take m).length, rg,
        chunkRatios ((rf.bytes.drop k).take m) 8192 k
          (if rf.hasLength then some ((rf.bytes.drop k).length + k) else none),
        0, rem, 0⟩,
       Except.error (DLError.transferFailed
         (rf.failMsg ++ "\nError while downloading file '" ++ fname
           ++ "'. Dataset download aborted."))) := by
  unfold runTransfer
  rw [hfail]
  simp only [decide_eq_true_eq]
  rw [if_pos hm]

theorem runTransfer_retries (w : World) (rf : RemoteFile) (fname tf df : String) (k : Nat)
    (app : Bool) (rem : List String) (rg : List Nat) :
    (runTransfer w rf fname tf df k app rem rg).2.1.retries = 0 := by
  unfold runTransfer
  dsimp only
  repeat' split
  all_goals rfl

theorem download_file_false_eq_fresh (url dir : String) (ow : Bool) (w : World) :
    download_file url dir false ow w = download_fresh url dir ow w := by
  unfold download_file download_fresh
  cases hp : dlPre url dir ow w with
  | inl wp => rfl
  | inr ctx =>
    cases hr : ctx.w.remote url with
    | none => rfl
    | some rf => rfl

theorem download_fresh_retries (url dir : String) (ow : Bool) (w : World) :
    (download_fresh url dir ow w).2.1.retries = 0 := by
  unfold download_fresh
  cases hp : dlPre url dir ow w with
  | inl wp => rfl
  | inr ctx =>
    dsimp only
    cases hr : ctx.w.remote url with
    | none => rfl
    | some rf => exact runTransfer_retries _ _ _ _ _ _ _ _ _

theorem download_file_retries_le_one (url dir : String) (resume ow : Bool) (w : World) :
    (download_file url dir resume ow w).2.1.retries ≤ 1 := by
  unfold download_file
  cases hp : dlPre url dir ow w with
  | inl wp => exact Nat.zero_le 1
  | inr ctx =>
    dsimp only
    cases hr : ctx.w.remote url with
    | none => exact Nat.zero_le 1
    | some rf =>
      dsimp only
      by_cases hb : (resume && fsExists ctx.w ctx.tfname) = true
      · rw [if_pos hb]
        by_cases ha : rf.acceptRange = true
        · rw [if_pos ha, runTransfer_retries]
          exact Nat.zero_le 1
        · rw [if_neg ha]
          show 1 + (download_fresh url dir false ctx.w).2.1.retries ≤ 1
          rw [download_fresh_retries]
      · rw [if_neg hb, runTransfer_retries]
        exact Nat.zero_le 1

/-! ## Claim theorems -/

/-- C7: for every target whose final path already exists, `download_file` and
`copy_file` with `overwrite=false` return the existing path immediately: the
returned world is the input world with at most the data directory created, and
the trace is empty — no network connection is opened, no byte is transferred,
no copy is performed.  A second call on a completed target is therefore a
no-op returning the same path. -/
theorem C7_idempotent (url path dir dir2 : String) (resume : Bool) (w w2 : World)
    (c c2 : List Nat)
    (hdf : fsGet w (pjoin dir (urlBasename url)) = some c)
    (hcf : fsGet w2 (pjoin dir2 (pbasename path)) = some c2) :
    download_file url dir resume false w
      = (makedirs w dir, Trace.empty, Except.ok (pjoin dir (urlBasename url))) ∧
    copy_file path dir2 false w2
      = (makedirs w2 dir2, Trace.empty, Except.ok (pjoin dir2 (pbasename path))) := by
  refine ⟨download_file_short_circuit url dir resume w c hdf, ?_⟩
  unfold copy_file
  have h1 : fsExists (makedirs w2 dir2) (pjoin dir2 (pbasename path)) = true := by
    simp [fsExists, fsGet_makedirs, hcf]
  simp [h1]

/-- Witness for `C7_idempotent` at a concrete world for each operation. -/
theorem C7_idempotent_witness :
    (fsGet C7w (pjoin "/d" (urlBasename "http://h/f")) = some [1] ∧
     fsGet C7w2 (pjoin "/e" (pbasename "/s/g")) = some [2]) ∧
    (download_file "http://h/f" "/d" true false C7w
        = (makedirs C7w "/d", Trace.empty, Except.ok (pjoin "/d" (urlBasename "http://h/f"))) ∧
     copy_file "/s/g" "/e" false C7w2
        = (makedirs C7w2 "/e", Trace.empty, Except.ok (pjoin "/e" (pbasename "/s/g")))) :=
  ⟨⟨by decide, by decide⟩,
   C7_idempotent "http://h/f" "/s/g" "/d" "/e" true C7w C7w2 [1] [2] (by decide) (by decide)⟩

/-- C5 counterexample: the reachability probe fails on a world with no data
directory, and the call nevertheless creates the data directory — a
filesystem side effect, refuting "performs no filesystem side effect
whatsoever" (`os.makedirs` runs at line 248, before the probe at line 279). -/
theorem C5_counterexample :
    (download_file "http://h/x.bin" "/d" true false C5w).2.2
        = Except.error (DLError.unreachable (unreachableMsg "http://h/x.bin")) ∧
    C5w.dirs = [] ∧
    (download_file "http://h/x.bin" "/d" true false C5w).1.dirs = ["/d"] := by
  decide

/-- C5 amended: if the reachability probe fails, `download_file` fails with
the `ValueError` "The '<url>' dataset has not been released yet." before any
byte is transferred: no file is created or changed (given no overwrite
deletion applies), no byte comes from the remote, no progress is reported —
but the data directory has already been created when absent. -/
theorem C5_amended_unreachable (url dir : String) (resume ow : Bool) (w : World)
    (hrf : w.remote url = none)
    (hdf : fsGet w (pjoin dir (urlBasename url)) = none)
    (htmp : fsGet w (pjoin dir (urlBasename url ++ ".part")) = none) :
    (download_file url dir resume ow w).2.2
        = Except.error (DLError.unreachable (unreachableMsg url)) ∧
    (download_file url dir resume ow w).1.fs = w.fs ∧
    (download_file url dir resume ow w).2.1.bytesFromRemote = 0 ∧
    (download_file url dir resume ow w).2.1.ratios = [] ∧
    (download_file url dir resume ow w).1.dirs = (makedirs w dir).dirs := by
  have hpre := dlPre_not_exists url dir ow w hdf (fun _ => htmp)
  have hrem : (makedirs w dir).remote url = none := by rw [remote_makedirs]; exact hrf
  rw [download_file_unreachable url dir resume ow w _ hpre hrem]
  exact ⟨rfl, fs_makedirs w dir, rfl, rfl, rfl⟩

/-- Witness for `C5_amended_unreachable` at the concrete world `C5w`. -/
theorem C5_amended_unreachable_witness :
    (C5w.remote "http://h/x.bin" = none ∧
     fsGet C5w (pjoin "/d" (urlBasename "http://h/x.bin")) = none ∧
     fsGet C5w (pjoin "/d" (urlBasename "http://h/x.bin" ++ ".part")) = none) ∧
    ((download_file "http://h/x.bin" "/d" true false C5w).2.2
        = Except.error (DLError.unreachable (unreachableMsg "http://h/x.bin")) ∧
     (download_file "http://h/x.bin" "/d" true false C5w).1.fs = C5w.fs ∧
     (download_file "http://h/x.bin" "/d" true false C5w).2.1.bytesFromRemote = 0 ∧
     (download_file "http://h/x.bin" "/d" true false C5w).2.1.ratios = [] ∧
     (download_file "http://h/x.bin" "/d" true false C5w).1.dirs = (makedirs C5w "/d").dirs) :=
  ⟨⟨rfl, by decide, by decide⟩,
   C5_amended_unreachable "http://h/x.bin" "/d" true false C5w rfl (by decide) (by decide)⟩

/-- C3: when the server rejects the resume range request, `download_file`
retries exactly once from scratch with `resume=false, overwrite=false`
(the whole outcome — result and final world — is that of the one
from-scratch call, so the rejection is surfaced only if that retry fails);
the retry counter of the combined trace is exactly 1, a from-scratch call
never retries, and no call ever retries more than once. -/
theorem C3_retry_once (url dir : String) (w : World) (rf : RemoteFile)
    (hrf : w.remote url = some rf) (hacc : rf.acceptRange = false)
    (hdf : fsGet w (pjoin dir (urlBasename url)) = none)
    (htmp : fsExists (makedirs w dir) (pjoin dir (urlBasename url ++ ".part")) = true) :
    ((download_file url dir true false w).2.2
        = (download_fresh url dir false (makedirs w dir)).2.2 ∧
     (download_file url dir true false w).1
        = (download_fresh url dir false (makedirs w dir)).1) ∧
    (download_file url dir true false w).2.1.retries = 1 ∧
    (∀ u d o w', (download_fresh u d o w').2.1.retries = 0) ∧
    (∀ u d r o w', (download_file u d r o w').2.1.retries ≤ 1) := by
  have hpre := dlPre_not_exists url dir false w hdf (fun h => nomatch h)
  have hrem : (makedirs w dir).remote url = some rf := by rw [remote_makedirs]; exact hrf
  rw [download_file_step url dir true false w _ rf hpre hrem]
  dsimp only
  have hc : (true && fsExists (makedirs w dir) (pjoin dir (urlBasename url ++ ".part"))) = true := by
    rw [Bool.true_and]; exact htmp
  rw [if_pos hc, if_neg (by rw [hacc]; exact Bool.false_ne_true)]
  refine ⟨⟨rfl, rfl⟩, ?_, download_fresh_retries, download_file_retries_le_one⟩
  show 1 + (download_fresh url dir false (makedirs w dir)).2.1.retries = 1
  rw [download_fresh_retries]

/-- Witness for `C3_retry_once` at the concrete world `C3w`. -/
theorem C3_retry_once_witness :
    (C3w.remote "http://h3/f" = some C3rf ∧ C3rf.acceptRange = false ∧
     fsGet C3w (pjoin "/d3" (urlBasename "http://h3/f")) = none ∧
     fsExists (makedirs C3w "/d3") (pjoin "/d3" (urlBasename "http://h3/f" ++ ".part")) = true) ∧
    (((download_file "http://h3/f" "/d3" true false C3w).2.2
        = (download_fresh "http://h3/f" "/d3" false (makedirs C3w "/d3")).2.2 ∧
      (download_file "http://h3/f" "/d3" true false C3w).1
        = (download_fresh "http://h3/f" "/d3" false (makedirs C3w "/d3")).1) ∧
     (download_file "http://h3/f" "/d3" true false C3w).2.1.retries = 1 ∧
     (∀ u d o w', (download_fresh u d o w').2.1.retries = 0) ∧
     (∀ u d r o w', (download_file u d r o w').2.1.retries ≤ 1)) :=
  ⟨⟨rfl, rfl, by decide, by decide⟩,
   C3_retry_once "http://h3/f" "/d3" C3w C3rf rfl rfl (by decide) (by decide)⟩

/-- C10: calling `download_file` with `resume=false, overwrite=false` while a
temp file exists opens the temp file in truncating write mode (`"wb"`, line
310): the partial bytes are discarded without being deleted beforehand (no
removal event), the byte counter restarts at 0 (the reported ratios are those
of a from-scratch transfer), no error is raised, and the final file holds
exactly the remote bytes. -/
theorem C10_truncate_fresh (url dir : String) (w : World) (rf : RemoteFile) (old : List Nat)
    (hrf : w.remote url = some rf) (hfail : rf.failAfter = none)
    (hdf : fsGet w (pjoin dir (urlBasename url)) = none)
    (htmp : fsGet w (pjoin dir (urlBasename url ++ ".part")) = some old) :
    (download_file url dir false false w).2.2 = Except.ok (pjoin dir (urlBasename url)) ∧
    (download_file url dir false false w).2.1.removals = [] ∧
    (download_file url dir false false w).2.1.ratios
        = chunkRatios rf.bytes 8192 0
            (if rf.hasLength then some rf.bytes.length else none) ∧
    fsGet (download_file url dir false false w).1 (pjoin dir (urlBasename url))
        = some rf.bytes ∧
    fsGet (download_file url dir false false w).1 (pjoin dir (urlBasename url ++ ".part"))
        = none := by
  have hpre := dlPre_not_exists url dir false w hdf (fun h => nomatch h)
  have hrem : (makedirs w dir).remote url = some rf := by rw [remote_makedirs]; exact hrf
  rw [download_file_false_eq_fresh, download_fresh_step url dir false w _ rf hpre hrem]
  dsimp only
  rw [runTransfer_ok _ _ _ _ _ _ _ _ _ hfail]
  refine ⟨rfl, rfl, by simp, ?_, ?_⟩
  · rw [fsGet_fsMove_dst _ _ _ _ (fsGet_close_set_self _ _ _)]
    simp
  · exact fsGet_fsMove_src _ _ _ _ (fsGet_close_set_self _ _ _)
      (pjoin_part_ne dir (urlBasename url))

/-- Witness for `C10_truncate_fresh` at the concrete world `C10w`. -/
theorem C10_truncate_fresh_witness :
    (C10w.remote "http://ha/f" = some C10rf ∧ C10rf.failAfter = none ∧
     fsGet C10w (pjoin "/da" (urlBasename "http://ha/f")) = none ∧
     fsGet C10w (pjoin "/da" (urlBasename "http://ha/f" ++ ".part")) = some [9, 9, 9]) ∧
    ((download_file "http://ha/f" "/da" false false C10w).2.2
        = Except.ok (pjoin "/da" (urlBasename "http://ha/f")) ∧
     (download_file "http://ha/f" "/da" false false C10w).2.1.removals = [] ∧
     (download_file "http://ha/f" "/da" false false C10w).2.1.ratios
        = chunkRatios C10rf.bytes 8192 0
            (if C10rf.hasLength then some C10rf.bytes.length else none) ∧
     fsGet (download_file "http://ha/f" "/da" false false C10w).1
        (pjoin "/da" (urlBasename "http://ha/f")) = some C10rf.bytes ∧
     fsGet (download_file "http://ha/f" "/da" false false C10w).1
        (pjoin "/da" (urlBasename "http://ha/f" ++ ".part")) = none) :=
  ⟨⟨rfl, rfl, by decide, by decide⟩,
   C10_truncate_fresh "http://ha/f" "/da" C10w C10rf [9, 9, 9] rfl rfl (by decide) (by decide)⟩

/-- C4 counterexample: on a mid-transfer `HTTPError` the raised message is
`"{e}\nError while downloading file '{fname}'. Dataset download aborted."`
(data.py lines 350-352) where `fname` is the basename of the URL — the URL
itself does not occur in the message, refuting "an error whose message
identifies the URL". -/
theorem C4_counterexample :
    (download_file "http://h4/a.bin" "/d4" true false C4w).2.2
      = Except.error (DLError.transferFailed
          "HTTP Error 500: Internal Server Error\nError while downloading file 'a.bin'. Dataset download aborted.") ∧
    strOccurs "http://h4/a.bin"
      "HTTP Error 500: Internal Server Error\nError while downloading file 'a.bin'. Dataset download aborted."
      = false := by
  decide

/-- C4 amended: on a fatal transport error during the chunked transfer loop,
`download_file` raises an error whose message contains the basename of the
downloaded file and the underlying cause (not the full URL); the temp file is
left on disk holding the bytes delivered so far, and the temp-file handle is
closed on the way out. -/
theorem C4_amended_transfer_error (url dir : String) (resume ow : Bool) (w : World)
    (rf : RemoteFile) (m : Nat)
    (hrf : w.remote url = some rf) (hfa : rf.failAfter = some m) (hm : m < rf.bytes.length)
    (hdf : fsGet w (pjoin dir (urlBasename url)) = none)
    (htmp : fsGet w (pjoin dir (urlBasename url ++ ".part")) = none) :
    (download_file url dir resume ow w).2.2
        = Except.error (DLError.transferFailed
            (rf.failMsg ++ "\nError while downloading file '" ++ urlBasename url
              ++ "'. Dataset download aborted.")) ∧
    fsGet (download_file url dir resume ow w).1 (pjoin dir (urlBasename url ++ ".part"))
        = some (rf.bytes.take m) ∧
    pjoin dir (urlBasename url ++ ".part")
        ∉ (download_file url dir resume ow w).1.openHandles := by
  have hpre := dlPre_not_exists url dir ow w hdf (fun _ => htmp)
  have hrem : (makedirs w dir).remote url = some rf := by rw [remote_makedirs]; exact hrf
  rw [download_file_step url dir resume ow w _ rf hpre hrem]
  dsimp only
  have hex : (resume && fsExists (makedirs w dir) (pjoin dir (urlBasename url ++ ".part"))) = false := by
    have : fsExists (makedirs w dir) (pjoin dir (urlBasename url ++ ".part")) = false := by
      simp [fsExists, fsGet_makedirs, htmp]
    rw [this, Bool.and_false]
  rw [hex, if_neg Bool.false_ne_true]
  rw [runTransfer_err _ _ _ _ _ _ _ _ _ _ hfa (by simpa using hm)]
  refine ⟨rfl, ?_, ?_⟩
  · rw [fsGet_close_set_self]
    simp
  · exact closeFile_not_open _ _

/-- Witness for `C4_amended_transfer_error` at the concrete world `C4w`. -/
theorem C4_amended_transfer_error_witness :
    (C4w.remote "http://h4/a.bin" = some C4rf ∧ C4rf.failAfter = some 2 ∧
     2 < C4rf.bytes.length ∧
     fsGet C4w (pjoin "/d4" (urlBasename "http://h4/a.bin")) = none ∧
     fsGet C4w (pjoin "/d4" (urlBasename "http://h4/a.bin" ++ ".part")) = none) ∧
    ((download_file "http://h4/a.bin" "/d4" true false C4w).2.2
        = Except.error (DLError.transferFailed
            (C4rf.failMsg ++ "\nError while downloading file '" ++ urlBasename "http://h4/a.bin"
              ++ "'. Dataset download aborted.")) ∧
     fsGet (download_file "http://h4/a.bin" "/d4" true false C4w).1
        (pjoin "/d4" (urlBasename "http://h4/a.bin" ++ ".part")) = some (C4rf.bytes.take 2) ∧
     pjoin "/d4" (urlBasename "http://h4/a.bin" ++ ".part")
        ∉ (download_file "http://h4/a.bin" "/d4" true false C4w).1.openHandles) :=
  ⟨⟨rfl, rfl, by decide, by decide, by decide⟩,
   C4_amended_transfer_error "http://h4/a.bin" "/d4" true false C4w C4rf 2
     rfl rfl (by decide) (by decide) (by decide)⟩

/-- C2: resuming from a temp file holding the first `K` bytes of an `N`-byte
source sends the range request `bytes=K-` (recorded as the offset `K`),
appends the response, transfers exactly `N − K` bytes from the remote, and
leaves at the final path a file byte-identical to the one a fresh download
(temp file absent) produces: both equal the full remote content. -/
theorem C2_resume_correct (url dir : String) (w : World) (rf : RemoteFile) (K : Nat)
    (hrf : w.remote url = some rf) (hacc : rf.acceptRange = true) (hfail : rf.failAfter = none)
    (hK : K ≤ rf.bytes.length)
    (hdf : fsGet w (pjoin dir (urlBasename url)) = none)
    (htmp : fsGet w (pjoin dir (urlBasename url ++ ".part")) = some (rf.bytes.take K)) :
    (download_file url dir true false w).2.2 = Except.ok (pjoin dir (urlBasename url)) ∧
    (download_file url dir true false w).2.1.rangeRequests = [K] ∧
    (download_file url dir true false w).2.1.bytesFromRemote = rf.bytes.length - K ∧
    fsGet (download_file url dir true false w).1 (pjoin dir (urlBasename url))
        = some rf.bytes ∧
    fsGet (download_file url dir true false w).1 (pjoin dir (urlBasename url ++ ".part"))
        = none ∧
    fsGet (download_file url dir true false
        (fsRemove w (pjoin dir (urlBasename url ++ ".part")))).1 (pjoin dir (urlBasename url))
      = some rf.bytes := by
  have hpre := dlPre_not_exists url dir false w hdf (fun h => nomatch h)
  have hrem : (makedirs w dir).remote url = some rf := by rw [remote_makedirs]; exact hrf
  have hsize : fsSize (makedirs w dir) (pjoin dir (urlBasename url ++ ".part")) = K := by
    simp [fsSize, fsGet_makedirs, htmp, List.length_take, Nat.min_eq_left hK]
  have hold : (fsGet (makedirs w dir) (pjoin dir (urlBasename url ++ ".part"))).getD []
      = rf.bytes.take K := by
    rw [fsGet_makedirs, htmp]; rfl
  have hfull : rf.bytes.take K ++ rf.bytes.drop K = rf.bytes := List.take_append_drop _ _
  rw [download_file_step url dir true false w _ rf hpre hrem]
  dsimp only
  have hc : (true && fsExists (makedirs w dir) (pjoin dir (urlBasename url ++ ".part"))) = true := by
    rw [Bool.true_and]
    simp [fsExists, fsGet_makedirs, htmp]
  rw [if_pos hc, if_pos hacc, hsize]
  rw [runTransfer_ok _ _ _ _ _ _ _ _ _ hfail]
  have hdf2 : fsGet (fsRemove w (pjoin dir (urlBasename url ++ ".part")))
      (pjoin dir (urlBasename url)) = none := by
    rw [fsGet_fsRemove_ne _ _ _ (pjoin_part_ne dir (urlBasename url)).symm]
    exact hdf
  have htmp2 : fsGet (fsRemove w (pjoin dir (urlBasename url ++ ".part")))
      (pjoin dir (urlBasename url ++ ".part")) = none := fsGet_fsRemove_self _ _
  have hpre2 := dlPre_not_exists url dir false
    (fsRemove w (pjoin dir (urlBasename url ++ ".part"))) hdf2 (fun h => nomatch h)
  have hrem2 : (makedirs (fsRemove w (pjoin dir (urlBasename url ++ ".part"))) dir).remote url
      = some rf := by
    rw [remote_makedirs]; exact hrf
  rw [download_file_step url dir true false _ _ rf hpre2 hrem2]
  dsimp only
  have hex2 : (true && fsExists (makedirs (fsRemove w (pjoin dir (urlBasename url ++ ".part"))) dir)
      (pjoin dir (urlBasename url ++ ".part"))) = false := by
    rw [Bool.true_and]
    simp [fsExists, fsGet_makedirs, htmp2]
  rw [hex2, if_neg Bool.false_ne_true]
  rw [runTransfer_ok _ _ _ _ _ _ _ _ _ hfail]
  refine ⟨rfl, rfl, by simp, ?_, ?_, ?_⟩
  · rw [fsGet_fsMove_dst _ _ _ _ (fsGet_close_set_self _ _ _)]
    simp [hold, hfull]
  · exact fsGet_fsMove_src _ _ _ _ (fsGet_close_set_self _ _ _)
      (pjoin_part_ne dir (urlBasename url))
  · rw [fsGet_fsMove_dst _ _ _ _ (fsGet_close_set_self _ _ _)]
    simp

/-- Witness for `C2_resume_correct` at the concrete world `C2w` with `K = 2`
and a 6-byte source. -/
theorem C2_resume_correct_witness :
    (C2w.remote "http://h/f" = some C2rf ∧ C2rf.acceptRange = true ∧
     C2rf.failAfter = none ∧ 2 ≤ C2rf.bytes.length ∧
     fsGet C2w (pjoin "/d" (urlBasename "http://h/f")) = none ∧
     fsGet C2w (pjoin "/d" (urlBasename "http://h/f" ++ ".part")) = some (C2rf.bytes.take 2)) ∧
    ((download_file "http://h/f" "/d" true false C2w).2.2
        = Except.ok (pjoin "/d" (urlBasename "http://h/f")) ∧
     (download_file "http://h/f" "/d" true false C2w).2.1.rangeRequests = [2] ∧
     (download_file "http://h/f" "/d" true false C2w).2.1.bytesFromRemote
        = C2rf.bytes.length - 2 ∧
     fsGet (download_file "http://h/f" "/d" true false C2w).1
        (pjoin "/d" (urlBasename "http://h/f")) = some C2rf.bytes ∧
     fsGet (download_file "http://h/f" "/d" true false C2w).1
        (pjoin "/d" (urlBasename "http://h/f" ++ ".part")) = none ∧
     fsGet (download_file "http://h/f" "/d" true false
        (fsRemove C2w (pjoin "/d" (urlBasename "http://h/f" ++ ".part")))).1
        (pjoin "/d" (urlBasename "http://h/f")) = some C2rf.bytes) :=
  ⟨⟨rfl, rfl, rfl, by decide, by decide, by decide⟩,
   C2_resume_correct "http://h/f" "/d" C2w C2rf 2 rfl rfl rfl
     (by decide) (by decide) (by decide)⟩

/-- C9: when the response carries no usable `Content-Length`, every progress
ratio reported during the transfer is the placeholder `0`, and the transfer
still completes: the result is the final path, the final file exists, and the
temp file has been promoted away (this covers the fresh, resumed, and
range-rejected-retry branches alike). -/
theorem C9_unknown_total (url dir : String) (resume : Bool) (w : World) (rf : RemoteFile)
    (hrf : w.remote url = some rf) (hlen : rf.hasLength = false) (hfail : rf.failAfter = none)
    (hdf : fsGet w (pjoin dir (urlBasename url)) = none) :
    (download_file url dir resume false w).2.2 = Except.ok (pjoin dir (urlBasename url)) ∧
    (∀ r ∈ (download_file url dir resume false w).2.1.ratios, r = (0 : Rat)) ∧
    (fsGet (download_file url dir resume false w).1 (pjoin dir (urlBasename url))).isSome
        = true ∧
    fsGet (download_file url dir resume false w).1 (pjoin dir (urlBasename url ++ ".part"))
        = none := by
  have hpre := dlPre_not_exists url dir false w hdf (fun h => nomatch h)
  have hrem : (makedirs w dir).remote url = some rf := by rw [remote_makedirs]; exact hrf
  rw [download_file_step url dir resume false w _ rf hpre hrem]
  dsimp only
  by_cases hb : (resume && fsExists (makedirs w dir) (pjoin dir (urlBasename url ++ ".part"))) = true
  · rw [if_pos hb]
    by_cases ha : rf.acceptRange = true
    · rw [if_pos ha]
      rw [runTransfer_ok _ _ _ _ _ _ _ _ _ hfail]
      refine ⟨rfl, ?_, ?_, ?_⟩
      · intro r hr
        rw [hlen] at hr
        simp only [Bool.false_eq_true, if_false] at hr
        exact chunkRatios_total_none _ _ _ _ hr
      · rw [fsGet_fsMove_dst _ _ _ _ (fsGet_close_set_self _ _ _)]
        rfl
      · exact fsGet_fsMove_src _ _ _ _ (fsGet_close_set_self _ _ _)
          (pjoin_part_ne dir (urlBasename url))
    · rw [if_neg ha]
      have hdf2 : fsGet (makedirs w dir) (pjoin dir (urlBasename url)) = none := by
        rw [fsGet_makedirs]; exact hdf
      have hpre2 := dlPre_not_exists url dir false (makedirs w dir) hdf2 (fun h => nomatch h)
      rw [makedirs_makedirs] at hpre2
      rw [download_fresh_step url dir false (makedirs w dir) _ rf hpre2 hrem]
      rw [runTransfer_ok _ _ _ _ _ _ _ _ _ hfail]
      refine ⟨rfl, ?_, ?_, ?_⟩
      · intro r hr
        have hr2 : r ∈ chunkRatios (rf.bytes.drop 0) 8192 0
            (if rf.hasLength = true then some ((rf.bytes.drop 0).length + 0) else none) := by
          simpa [Trace.app] using hr
        rw [hlen] at hr2
        simp only [Bool.false_eq_true, if_false] at hr2
        exact chunkRatios_total_none _ _ _ _ hr2
      · rw [fsGet_fsMove_dst _ _ _ _ (fsGet_close_set_self _ _ _)]
        rfl
      · exact fsGet_fsMove_src _ _ _ _ (fsGet_close_set_self _ _ _)
          (pjoin_part_ne dir (urlBasename url))
  · rw [if_neg hb]
    rw [runTransfer_ok _ _ _ _ _ _ _ _ _ hfail]
    refine ⟨rfl, ?_, ?_, ?_⟩
    · intro r hr
      rw [hlen] at hr
      simp only [Bool.false_eq_true, if_false] at hr
      exact chunkRatios_total_none _ _ _ _ hr
    · rw [fsGet_fsMove_dst _ _ _ _ (fsGet_close_set_self _ _ _)]
      rfl
    · exact fsGet_fsMove_src _ _ _ _ (fsGet_close_set_self _ _ _)
        (pjoin_part_ne dir (urlBasename url))

/-- Witness for `C9_unknown_total` at the concrete world `C9w`. -/
theorem C9_unknown_total_witness :
    (C9w.remote "http://h9/f" = some C9rf ∧ C9rf.hasLength = false ∧
     C9rf.failAfter = none ∧
     fsGet C9w (pjoin "/d9" (urlBasename "http://h9/f")) = none) ∧
    ((download_file "http://h9/f" "/d9" true false C9w).2.2
        = Except.ok (pjoin "/d9" (urlBasename "http://h9/f")) ∧
     (∀ r ∈ (download_file "http://h9/f" "/d9" true false C9w).2.1.ratios, r = (0 : Rat)) ∧
     (fsGet (download_file "http://h9/f" "/d9" true false C9w).1
        (pjoin "/d9" (urlBasename "http://h9/f"))).isSome = true ∧
     fsGet (download_file "http://h9/f" "/d9" true false C9w).1
        (pjoin "/d9" (urlBasename "http://h9/f" ++ ".part")) = none) :=
  ⟨⟨rfl, rfl, rfl, by decide⟩,
   C9_unknown_total "http://h9/f" "/d9" true C9w C9rf rfl rfl rfl (by decide)⟩

/-- C6: with an expected digest in the catalog, a digest mismatch on the
downloaded file makes `get_sample_data` return the integrity `Exception`
whose message names the offending path (data.py lines 144-147); the acquired
file is left on disk, and — the result being the error, not `loaded` — the
external loader is never invoked and no dataset is returned. -/
theorem C6_integrity_mismatch (digest : List Nat → String) (name datadir m : String)
    (ds : DatasetEntry) (w : World) (rf : RemoteFile)
    (hname : lookupDataset name = some ds) (hmd5 : ds.md5sum = some m)
    (hlocal : fsExists w (formatPYSAP ds.url) = false)
    (hrf : w.remote (formatPYSAP ds.url) = some rf) (hfail : rf.failAfter = none)
    (hdf : fsGet w (pjoin DATADIR (urlBasename (formatPYSAP ds.url))) = none)
    (htmp : fsGet w (pjoin DATADIR (urlBasename (formatPYSAP ds.url) ++ ".part")) = none)
    (hdig : digest rf.bytes ≠ m) :
    (get_sample_data digest name datadir w).2.2
        = SampleResult.integrityError
            ("File '" ++ pjoin DATADIR (urlBasename (formatPYSAP ds.url))
              ++ "' checksum verification has failed.") ∧
    fsGet (get_sample_data digest name datadir w).1
        (pjoin DATADIR (urlBasename (formatPYSAP ds.url))) = some rf.bytes := by
  have hpre := dlPre_not_exists (formatPYSAP ds.url) DATADIR false w hdf (fun _ => htmp)
  have hrem : (makedirs w DATADIR).remote (formatPYSAP ds.url) = some rf := by
    rw [remote_makedirs]; exact hrf
  obtain ⟨W', T', hdl, hW'⟩ : ∃ W' T', download_file (formatPYSAP ds.url) DATADIR true false w
      = (W', T', Except.ok (pjoin DATADIR (urlBasename (formatPYSAP ds.url))))
      ∧ fsGet W' (pjoin DATADIR (urlBasename (formatPYSAP ds.url))) = some rf.bytes := by
    rw [download_file_step (formatPYSAP ds.url) DATADIR true false w _ rf hpre hrem]
    dsimp only
    have hex : (true && fsExists (makedirs w DATADIR)
        (pjoin DATADIR (urlBasename (formatPYSAP ds.url) ++ ".part"))) = false := by
      rw [Bool.true_and]
      simp [fsExists, fsGet_makedirs, htmp]
    rw [hex, if_neg Bool.false_ne_true]
    rw [runTransfer_ok _ _ _ _ _ _ _ _ _ hfail]
    refine ⟨_, _, rfl, ?_⟩
    rw [fsGet_fsMove_dst _ _ _ _ (fsGet_close_set_self _ _ _)]
    simp
  unfold get_sample_data
  rw [hname]
  dsimp only
  rw [hlocal, if_neg Bool.false_ne_true, hdl]
  dsimp only
  rw [hmd5]
  dsimp only
  have hsum : md5_sum_file digest W' (pjoin DATADIR (urlBasename (formatPYSAP ds.url)))
      = some (digest rf.bytes) := by
    unfold md5_sum_file
    rw [hW']
    rfl
  rw [hsum, if_pos (show some (digest rf.bytes) ≠ some m from by simpa using hdig)]
  exact ⟨rfl, hW'⟩

/-- Witness for `C6_integrity_mismatch`: the `astro-mask` entry, a remote
serving bytes whose digest is not the expected md5. -/
theorem C6_integrity_mismatch_witness :
    (lookupDataset "astro-mask"
        = some ⟨"ftp://ftp.cea.fr/pub/unati/nsap/pysap/datasets/mask25_sig40.fits",
                some "8d7fd9b4d7c2aaf407fa1331860a130f", []⟩ ∧
     C6w.remote (formatPYSAP "ftp://ftp.cea.fr/pub/unati/nsap/pysap/datasets/mask25_sig40.fits")
        = some C6rf ∧
     (fun _ : List Nat => "x") C6rf.bytes ≠ "8d7fd9b4d7c2aaf407fa1331860a130f") ∧
    ((get_sample_data (fun _ => "x") "astro-mask" "/anywhere" C6w).2.2
        = SampleResult.integrityError
            ("File '" ++ pjoin DATADIR (urlBasename (formatPYSAP
                "ftp://ftp.cea.fr/pub/unati/nsap/pysap/datasets/mask25_sig40.fits"))
              ++ "' checksum verification has failed.") ∧
     fsGet (get_sample_data (fun _ => "x") "astro-mask" "/anywhere" C6w).1
        (pjoin DATADIR (urlBasename (formatPYSAP
            "ftp://ftp.cea.fr/pub/unati/nsap/pysap/datasets/mask25_sig40.fits")))
        = some C6rf.bytes) :=
  ⟨⟨by decide, by decide, by decide⟩,
   C6_integrity_mismatch (fun _ => "x") "astro-mask" "/anywhere"
     "8d7fd9b4d7c2aaf407fa1331860a130f"
     ⟨"ftp://ftp.cea.fr/pub/unati/nsap/pysap/datasets/mask25_sig40.fits",
      some "8d7fd9b4d7c2aaf407fa1331860a130f", []⟩ C6w C6rf
     (by decide) rfl (by decide) (by decide) rfl (by decide) (by decide) (by decide)⟩

/-- C1 counterexample: `get_sample_data` is called with the destination
directory `"/custom"`, yet the acquired file lands at
`DATADIR/M31_128.fits` and nothing is created under `/custom` — the
caller-supplied `datadir` does not determine where files are written (lines
137 and 140 pass the module constant `DATADIR`). -/
theorem C1_counterexample :
    (get_sample_data (fun _ => "d") "astro-fits" "/custom" C1w).2.2
        = SampleResult.loaded "/home/user/.local/share/pysap/M31_128.fits" [] ∧
    fsExists (get_sample_data (fun _ => "d") "astro-fits" "/custom" C1w).1
        "/custom/M31_128.fits" = false ∧
    (get_sample_data (fun _ => "d") "astro-fits" "/custom" C1w).1.dirs
        = ["/home/user/.local/share/pysap"] := by
  decide

/-- C1 amended: `get_sample_data` ignores its `datadir` argument entirely —
the result is the same for any two values of it — and the acquired file is
placed at `<DATADIR>/<basename(source_locator)>` where `DATADIR` is the module
constant (the `datadir` default), after which the loader receives that path. -/
theorem C1_amended_datadir_ignored (digest : List Nat → String) (name d1 d2 : String)
    (ds : DatasetEntry) (w : World) (rf : RemoteFile)
    (hname : lookupDataset name = some ds) (hmd5 : ds.md5sum = none)
    (hlocal : fsExists w (formatPYSAP ds.url) = false)
    (hrf : w.remote (formatPYSAP ds.url) = some rf) (hfail : rf.failAfter = none)
    (hdf : fsGet w (pjoin DATADIR (urlBasename (formatPYSAP ds.url))) = none)
    (htmp : fsGet w (pjoin DATADIR (urlBasename (formatPYSAP ds.url) ++ ".part")) = none) :
    get_sample_data digest name d1 w = get_sample_data digest name d2 w ∧
    (get_sample_data digest name d1 w).2.2
        = SampleResult.loaded (pjoin DATADIR (urlBasename (formatPYSAP ds.url))) ds.options ∧
    fsGet (get_sample_data digest name d1 w).1
        (pjoin DATADIR (urlBasename (formatPYSAP ds.url))) = some rf.bytes := by
  have hpre := dlPre_not_exists (formatPYSAP ds.url) DATADIR false w hdf (fun _ => htmp)
  have hrem : (makedirs w DATADIR).remote (formatPYSAP ds.url) = some rf := by
    rw [remote_makedirs]; exact hrf
  obtain ⟨W', T', hdl, hW'⟩ : ∃ W' T', download_file (formatPYSAP ds.url) DATADIR true false w
      = (W', T', Except.ok (pjoin DATADIR (urlBasename (formatPYSAP ds.url))))
      ∧ fsGet W' (pjoin DATADIR (urlBasename (formatPYSAP ds.url))) = some rf.bytes := by
    rw [download_file_step (formatPYSAP ds.url) DATADIR true false w _ rf hpre hrem]
    dsimp only
    have hex : (true && fsExists (makedirs w DATADIR)
        (pjoin DATADIR (urlBasename (formatPYSAP ds.url) ++ ".part"))) = false := by
      rw [Bool.true_and]
      simp [fsExists, fsGet_makedirs, htmp]
    rw [hex, if_neg Bool.false_ne_true]
    rw [runTransfer_ok _ _ _ _ _ _ _ _ _ hfail]
    refine ⟨_, _, rfl, ?_⟩
    rw [fsGet_fsMove_dst _ _ _ _ (fsGet_close_set_self _ _ _)]
    simp
  refine ⟨rfl, ?_, ?_⟩
  · unfold get_sample_data
    rw [hname]
    dsimp only
    rw [hlocal, if_neg Bool.false_ne_true, hdl]
    dsimp only
    rw [hmd5]
  · unfold get_sample_data
    rw [hname]
    dsimp only
    rw [hlocal, if_neg Bool.false_ne_true, hdl]
    dsimp only
    rw [hmd5]
    exact hW'

/-- Witness for `C1_amended_datadir_ignored`: the `astro-fits` entry fetched
with two different `datadir` arguments. -/
theorem C1_amended_datadir_ignored_witness :
    (lookupDataset "astro-fits"
        = some ⟨"ftp://ftp.cea.fr/pub/unati/nsap/pysap/datasets/M31_128.fits", none, []⟩ ∧
     fsGet C1w (pjoin DATADIR (urlBasename (formatPYSAP
        "ftp://ftp.cea.fr/pub/unati/nsap/pysap/datasets/M31_128.fits"))) = none) ∧
    (get_sample_data (fun _ => "d") "astro-fits" "/custom" C1w
        = get_sample_data (fun _ => "d") "astro-fits" "/elsewhere" C1w ∧
     (get_sample_data (fun _ => "d") "astro-fits" "/custom" C1w).2.2
        = SampleResult.loaded (pjoin DATADIR (urlBasename (formatPYSAP
            "ftp://ftp.cea.fr/pub/unati/nsap/pysap/datasets/M31_128.fits"))) [] ∧
     fsGet (get_sample_data (fun _ => "d") "astro-fits" "/custom" C1w).1
        (pjoin DATADIR (urlBasename (formatPYSAP
            "ftp://ftp.cea.fr/pub/unati/nsap/pysap/datasets/M31_128.fits")))
        = some (⟨[7, 7], true, true, none, ""⟩ : RemoteFile).bytes) :=
  ⟨⟨by decide, by decide⟩,
   C1_amended_datadir_ignored (fun _ => "d") "astro-fits" "/custom" "/elsewhere"
     ⟨"ftp://ftp.cea.fr/pub/unati/nsap/pysap/datasets/M31_128.fits", none, []⟩ C1w
     ⟨[7, 7], true, true, none, ""⟩
     (by decide) rfl (by decide) (by decide) rfl (by decide) (by decide)⟩

/-! ## Lemmas for the progress bar -/

theorem pyStrMul_data (c : Char) (n : Int) : (pyStrMul c n).data = List.replicate n.toNat c := rfl

theorem pyStrMul_length (c : Char) (n : Int) : (pyStrMul c n).length = n.toNat := by
  show (List.replicate n.toNat c).length = n.toNat
  exact List.length_replicate _ _

theorem pyLjust_length (s : String) (width : Nat) :
    (pyLjust s width).length = max s.length width := by
  unfold pyLjust
  rw [String.length_append]
  show s.length + (List.replicate (width - s.length) ' ').length = max s.length width
  rw [List.length_replicate]
  omega

theorem pyRoundMul_nonneg (n : Nat) (q : Rat) (h0 : 0 ≤ q) : 0 ≤ pyRoundMul n q := by
  unfold pyRoundMul
  dsimp only
  have hdpos : (0 : Int) < (q.den : Int) := by exact_mod_cast q.den_pos
  have hnum0 : 0 ≤ (n : Int) * q.num :=
    mul_nonneg (Int.natCast_nonneg n) (Rat.num_nonneg.mpr h0)
  have hid := Int.fmod_add_fdiv ((n : Int) * q.num) (q.den : Int)
  have hr0 : 0 ≤ ((n : Int) * q.num).fmod (q.den : Int) :=
    Int.fmod_nonneg hnum0 (le_of_lt hdpos)
  have hrlt : ((n : Int) * q.num).fmod (q.den : Int) < (q.den : Int) :=
    Int.fmod_lt_of_pos _ hdpos
  have hfl : 0 ≤ ((n : Int) * q.num).fdiv (q.den : Int) := by
    by_contra hneg
    push_neg at hneg
    have h1 : ((n : Int) * q.num).fdiv (q.den : Int) ≤ -1 := by omega
    have h2 : (q.den : Int) * (((n : Int) * q.num).fdiv (q.den : Int)) ≤ (q.den : Int) * (-1) :=
      mul_le_mul_of_nonneg_left h1 (le_of_lt hdpos)
    linarith
  split_ifs <;> omega

theorem pyRoundMul_le_of_le_one (n : Nat) (q : Rat) (h0 : 0 ≤ q) (h1 : q ≤ 1) :
    pyRoundMul n q ≤ (n : Int) := by
  unfold pyRoundMul
  dsimp only
  have hdpos : (0 : Int) < (q.den : Int) := by exact_mod_cast q.den_pos
  have hq1 : q.num ≤ (q.den : Int) := by
    have h2 : (q.num : Rat) / (q.den : Rat) ≤ 1 := by rw [Rat.num_div_den]; exact h1
    have h3 : (0 : Rat) < (q.den : Rat) := by exact_mod_cast q.den_pos
    exact_mod_cast (div_le_one h3).mp h2
  have hnum_le : (n : Int) * q.num ≤ (n : Int) * (q.den : Int) :=
    mul_le_mul_of_nonneg_left hq1 (Int.natCast_nonneg n)
  have hnum0 : 0 ≤ (n : Int) * q.num :=
    mul_nonneg (Int.natCast_nonneg n) (Rat.num_nonneg.mpr h0)
  have hid := Int.fmod_add_fdiv ((n : Int) * q.num) (q.den : Int)
  have hr0 : 0 ≤ ((n : Int) * q.num).fmod (q.den : Int) :=
    Int.fmod_nonneg hnum0 (le_of_lt hdpos)
  have hrlt : ((n : Int) * q.num).fmod (q.den : Int) < (q.den : Int) :=
    Int.fmod_lt_of_pos _ hdpos
  have hr_eq : (n : Int) * q.num - ((n : Int) * q.num).fdiv (q.den : Int) * (q.den : Int)
      = ((n : Int) * q.num).fmod (q.den : Int) := by linarith [hid]
  have hfln : ((n : Int) * q.num).fdiv (q.den : Int) ≤ (n : Int) := by
    by_contra hneg
    push_neg at hneg
    have h5 : (n : Int) + 1 ≤ ((n : Int) * q.num).fdiv (q.den : Int) := by omega
    have h6 : (q.den : Int) * ((n : Int) + 1)
        ≤ (q.den : Int) * (((n : Int) * q.num).fdiv (q.den : Int)) :=
      mul_le_mul_of_nonneg_left h5 (le_of_lt hdpos)
    nlinarith [hid, hr0, hnum_le]
  have hstep : (q.den : Int) ≤ 2 * (((n : Int) * q.num).fmod (q.den : Int)) →
      ((n : Int) * q.num).fdiv (q.den : Int) + 1 ≤ (n : Int) := by
    intro hhalf
    by_contra hneg
    push_neg at hneg
    have h5 : (n : Int) ≤ ((n : Int) * q.num).fdiv (q.den : Int) := by omega
    have h6 : (q.den : Int) * (n : Int)
        ≤ (q.den : Int) * (((n : Int) * q.num).fdiv (q.den : Int)) :=
      mul_le_mul_of_nonneg_left h5 (le_of_lt hdpos)
    nlinarith [hid, hnum_le]
  split_ifs with hc1 hc2 hc3
  · exact hfln
  · exact hstep (by rw [← hr_eq]; omega)
  · exact hfln
  · exact hstep (by rw [← hr_eq]; omega)

theorem le_pyRoundMul_of_one_le (n : Nat) (q : Rat) (h1 : 1 ≤ q) :
    (n : Int) ≤ pyRoundMul n q := by
  unfold pyRoundMul
  dsimp only
  have hdpos : (0 : Int) < (q.den : Int) := by exact_mod_cast q.den_pos
  have hq1 : (q.den : Int) ≤ q.num := by
    have h2 : (1 : Rat) ≤ (q.num : Rat) / (q.den : Rat) := by rw [Rat.num_div_den]; exact h1
    have h3 : (0 : Rat) < (q.den : Rat) := by exact_mod_cast q.den_pos
    exact_mod_cast (one_le_div h3).mp h2
  have hnum_ge : (n : Int) * (q.den : Int) ≤ (n : Int) * q.num :=
    mul_le_mul_of_nonneg_left hq1 (Int.natCast_nonneg n)
  have hid := Int.fmod_add_fdiv ((n : Int) * q.num) (q.den : Int)
  have hrlt : ((n : Int) * q.num).fmod (q.den : Int) < (q.den : Int) :=
    Int.fmod_lt_of_pos _ hdpos
  have hfl : (n : Int) ≤ ((n : Int) * q.num).fdiv (q.den : Int) := by
    by_contra hneg
    push_neg at hneg
    have h5 : ((n : Int) * q.num).fdiv (q.den : Int) ≤ (n : Int) - 1 := by omega
    have h6 : (q.den : Int) * (((n : Int) * q.num).fdiv (q.den : Int))
        ≤ (q.den : Int) * ((n : Int) - 1) :=
      mul_le_mul_of_nonneg_left h5 (le_of_lt hdpos)
    nlinarith [hid, hnum_ge, hrlt]
  split_ifs <;> omega

theorem pyIntMul_eq_floor (n : Nat) (q : Rat) (h0 : 0 ≤ q) :
    pyIntMul n q = ⌊((n : Nat) : Rat) * q⌋ := by
  unfold pyIntMul
  have hq0 : 0 ≤ q.num := Rat.num_nonneg.mpr h0
  rw [if_neg (not_lt.mpr hq0)]
  have hcast : ((((n : Int) * q.num : Int)) : Rat) / ((q.den : Nat) : Rat)
      = ((n : Nat) : Rat) * q := by
    push_cast
    rw [mul_div_assoc, Rat.num_div_den]
  rw [← hcast, Rat.floor_intCast_div_natCast]
  exact Int.fdiv_eq_ediv _ (Int.natCast_nonneg _)

/-- C8 counterexample: at `ratio = 2` with the default `bar_length = 20`, the
rendered text contains `round(20 * 2) = 40` filled segments and the bar region
is 40 characters wide — more than the configured bar width 20, because
`" " * (bar_length - block)` is empty for a negative count and nothing clamps
`block` (data.py line 198).  The bar is therefore not "clamped visually". -/
theorem C8_counterexample :
    (progress_bar 2 "f.bin" 20 40).data.count '=' = 40 ∧
    (progressParts 2 "f.bin" 20 40).1.length = 40 := by
  decide

/-- C8 amended: for every `ratio ≥ 0`, `progress_bar` renders
`round(bar_length * ratio)` filled segments, the whole-percentage integer
`int(100 * ratio)` (that is, `⌊100 * ratio⌋`), and the label left-justified to
the configured width; for `ratio ≤ 1` the bar region is exactly `bar_length`
wide, but for `ratio ≥ 1` its width is `round(bar_length * ratio)` itself —
ratios above 1 are tolerated (no error), yet the bar grows beyond the
configured width instead of being clamped. -/
theorem C8_amended_progress_bar (ratio : Rat) (title : String) (bar_length maxsize : Nat)
    (h0 : 0 ≤ ratio) :
    (progressParts ratio title bar_length maxsize).1.data.count '='
        = (pyRoundMul bar_length ratio).toNat ∧
    (ratio ≤ 1 → (progressParts ratio title bar_length maxsize).1.length = bar_length) ∧
    (1 ≤ ratio → (progressParts ratio title bar_length maxsize).1.length
        = (pyRoundMul bar_length ratio).toNat) ∧
    (progressParts ratio title bar_length maxsize).2.1 = ⌊((100 : Nat) : Rat) * ratio⌋ ∧
    (progressParts ratio title bar_length maxsize).2.2.length = max title.length maxsize := by
  refine ⟨?_, ?_, ?_, pyIntMul_eq_floor 100 ratio h0, pyLjust_length _ _⟩
  · show ((pyStrMul '=' (pyRoundMul bar_length ratio))
        ++ pyStrMul ' ' ((bar_length : Int) - pyRoundMul bar_length ratio)).data.count '='
        = (pyRoundMul bar_length ratio).toNat
    rw [String.data_append, List.count_append, pyStrMul_data, pyStrMul_data,
      List.count_replicate, List.count_replicate]
    simp
  · intro h1
    have hb0 : 0 ≤ pyRoundMul bar_length ratio := pyRoundMul_nonneg _ _ h0
    have hble : pyRoundMul bar_length ratio ≤ (bar_length : Int) :=
      pyRoundMul_le_of_le_one _ _ h0 h1
    show ((pyStrMul '=' (pyRoundMul bar_length ratio))
        ++ pyStrMul ' ' ((bar_length : Int) - pyRoundMul bar_length ratio)).length = bar_length
    rw [String.length_append, pyStrMul_length, pyStrMul_length]
    omega
  · intro h1
    have hbge : (bar_length : Int) ≤ pyRoundMul bar_length ratio :=
      le_pyRoundMul_of_one_le _ _ h1
    show ((pyStrMul '=' (pyRoundMul bar_length ratio))
        ++ pyStrMul ' ' ((bar_length : Int) - pyRoundMul bar_length ratio)).length
        = (pyRoundMul bar_length ratio).toNat
    rw [String.length_append, pyStrMul_length, pyStrMul_length]
    omega

/-- Witness for `C8_amended_progress_bar` at `ratio = 2`. -/
theorem C8_amended_progress_bar_witness :
    (0 : Rat) ≤ 2 ∧
    ((progressParts 2 "f.bin" 20 40).1.data.count '=' = (pyRoundMul 20 2).toNat ∧
     ((2 : Rat) ≤ 1 → (progressParts 2 "f.bin" 20 40).1.length = 20) ∧
     ((1 : Rat) ≤ 2 → (progressParts 2 "f.bin" 20 40).1.length = (pyRoundMul 20 2).toNat) ∧
     (progressParts 2 "f.bin" 20 40).2.1 = ⌊((100 : Nat) : Rat) * 2⌋ ∧
     (progressParts 2 "f.bin" 20 40).2.2.length = max ("f.bin" : String).length 40) :=
  ⟨by decide, C8_amended_progress_bar 2 "f.bin" 20 40 (by decide)⟩
